import Mathlib

/-!
Shallow embedding of the gltf-importer crate (src/gltf-importer/src/lib.rs and
src/gltf-importer/src/standard.rs) and proofs about its import pipeline.

Modelling conventions:
* byte strings (`Box<[u8]>`) are `List Nat`;
* the pluggable `Source` is a pure function `String → Except ε Bytes` giving the
  result of `source_external_data` for each URI (the futures in the source
  resolve immediately in this model, so the sequential polling order of
  `join3`/`join_all` in futures 0.1 is the deterministic order used here);
* external collaborators that the spec places out of scope (the serde JSON
  parser, the validation rule sets of the gltf crate, and the image codecs)
  are parameters of the embedded pipeline; the pipeline logic itself is
  translated from the source;
* Rust panics (`unwrap`, `unreachable!`, out-of-bounds indexing and slicing)
  are modelled explicitly by a `panic` outcome constructor;
* every stage also reports the ordered list of URIs passed to
  `source_external_data`, so that fetch-count properties are statable.
-/

namespace GI

/-- Raw byte strings (`Box<[u8]>` in the source), as lists of naturals. -/
abbrev Bytes := List Nat

/-- `image::ImageFormat` restricted to the two variants this importer
constructs (`JPEG` and `PNG`, from the MIME-type match in `source_images`). -/
inductive ImageFormat
  | JPEG
  | PNG
deriving DecidableEq

/-- A buffer entry of the parsed JSON root: an optional URI and a byte length
(the only fields the importer inspects). -/
structure Buffer where
  uri : Option String
  byteLength : Nat
deriving DecidableEq

/-- A buffer-view entry: buffer index, byte offset and byte length. -/
structure BufferView where
  buffer : Nat
  byteOffset : Nat
  byteLength : Nat
deriving DecidableEq

/-- An image entry: optional URI, optional declared MIME type, optional
buffer-view index. -/
structure Image where
  uri : Option String
  mimeType : Option String
  bufferView : Option Nat
deriving DecidableEq

/-- The asset header of the JSON root; carries the declared schema version. -/
structure Asset where
  version : String
deriving DecidableEq

/-- The parsed JSON root (`json::Root`), restricted to the fields the importer
inspects plus the asset header. -/
structure JsonRoot where
  buffers : List Buffer
  bufferViews : List BufferView
  images : List Image
  asset : Asset
deriving DecidableEq

/-- `json::Path`: the location of a violation inside the JSON document; an
opaque token to this core. -/
abbrev Path := String

/-- `json::validation::Error`: a violation kind reported by the external rule
set; an opaque token to this core. -/
abbrev VError := String

/-- `gltf::root::Root`: the wrapper placed around validated JSON. -/
structure Root where
  json : JsonRoot
deriving DecidableEq

/-- `Root::new`. -/
def Root.new (json : JsonRoot) : Root := ⟨json⟩

/-- `gltf::Gltf`: the final document wrapper returned by the pipeline. -/
structure Gltf where
  root : Root
deriving DecidableEq

/-- `Gltf::new`. -/
def Gltf.new (root : Root) : Gltf := ⟨root⟩

/-- `Error<S>` from lib.rs, parameterized by the source error type `ε` and by
the diagnostic types of the external JSON parser (`J`) and image codec
(`E`).  `Shared` wraps an error that passed through the shared-future layer
(`future::SharedError<Error<S>>`); `Io` and `MalformedGlb` carry opaque
payloads modelled as strings. -/
inductive Error (ε J E : Type)
  | Decode (e : E)
  | ExtensionDisabled (s : String)
  | ExtensionUnsupported (s : String)
  | IncompatibleVersion (s : String)
  | Io (s : String)
  | MalformedGlb (s : String)
  | MalformedJson (e : J)
  | Shared (e : Error ε J E)
  | Source (e : ε)
  | Validation (errs : List (Path × VError))
deriving DecidableEq

/-- Modelled from the spec: the `config` module is declared in lib.rs but is
not under src/.  Per §3/§6 of the spec the configuration has a single
validation-strategy field with the three values below. -/
inductive ValidationStrategy
  | Skip
  | Minimal
  | Complete
deriving DecidableEq

/-- Modelled from the spec: import configuration, one field. -/
structure Config where
  validation_strategy : ValidationStrategy
deriving DecidableEq

/-- Outcome of a Rust computation that returns no `Result` but may panic. -/
inductive Run (α : Type _)
  | ok (a : α)
  | panic (msg : String)
deriving DecidableEq

/-- Outcome of a Rust computation that returns a `Result` and may also
panic. -/
inductive RResult (ε α : Type _)
  | ok (a : α)
  | err (e : ε)
  | panic (msg : String)
deriving DecidableEq

/-- True exactly when the computation returned successfully. -/
def RResult.isOk {ε α : Type _} : RResult ε α → Bool
  | .ok _ => true
  | _ => false

/-- True exactly when the computation panicked. -/
def RResult.isPanic {ε α : Type _} : RResult ε α → Bool
  | .panic _ => true
  | _ => false

/-- `AsyncImage<S>` from standard.rs.  The pending fetch of an `Owned` image is
the (pure) fetch result, since the modelled source is a function. -/
inductive AsyncImage (ε : Type)
  | Borrowed (index offset len : Nat) (format : ImageFormat)
  | Owned (data : Except ε Bytes) (format : Option ImageFormat)

/-- `EncodedImage` from standard.rs: a resolved `AsyncImage`. -/
inductive EncodedImage
  | Borrowed (index offset len : Nat) (format : ImageFormat)
  | Owned (data : Bytes) (format : Option ImageFormat)
deriving DecidableEq

/-- Modelled from the spec: the `data` module (shared byte future,
`data::Async`) is declared in lib.rs but is not under src/.  Per §4.3 of the
spec, resolving the future yields the fetched bytes, or the source's error
wrapped in the shared-error envelope (here: `Shared` around `Source`). -/
def Data.resolve {ε J E : Type} (fetch : Except ε Bytes) :
    Except (Error ε J E) Bytes :=
  match fetch with
  | .ok b => .ok b
  | .error e => .error (.Shared (.Source e))

/-- The per-entry body of the closure in `source_buffers`
(standard.rs lines 116-120): `entry.uri.as_ref().unwrap()` then one call to
`source_external_data`.  The second component records the URIs fetched. -/
def source_buffer {ε : Type} (source : String → Except ε Bytes)
    (entry : Buffer) : Run (Except ε Bytes) × List String :=
  match entry.uri with
  | none => (.panic ("called Option::unwrap on a None value"), [])
  | some uri => (.ok (source uri), [uri])

/-- `source_buffers` (standard.rs lines 110-122): one fetch per buffer entry,
in entry order; a `None` URI panics after the fetches of earlier entries were
already issued. -/
def source_buffers {ε : Type} (source : String → Except ε Bytes) :
    List Buffer → Run (List (Except ε Bytes)) × List String
  | [] => (.ok [], [])
  | entry :: rest =>
    match source_buffer source entry with
    | (.panic m, us) => (.panic m, us)
    | (.ok fetch, us) =>
      match source_buffers source rest with
      | (.panic m, vs) => (.panic m, us ++ vs)
      | (.ok fetches, vs) => (.ok (fetch :: fetches), us ++ vs)

/-- The MIME-type match inside `source_images` (standard.rs lines 131-135):
recognized types map to a format, any other declared type hits
`unreachable!()`. -/
def image_format (mimeType : Option String) : Run (Option ImageFormat) :=
  match mimeType with
  | none => .ok none
  | some s =>
    if s = "image/jpeg" then .ok (some .JPEG)
    else if s = "image/png" then .ok (some .PNG)
    else .panic ("entered unreachable code")

/-- The per-entry body of the closure in `source_images`
(standard.rs lines 130-153): compute the format from the declared MIME type,
then branch on URI / buffer-view; a buffer-view image looks up
`buffer_views[index]` (panics out of bounds) and unwraps the format (panics
when no MIME type was declared); an image with neither URI nor buffer-view
hits `unreachable!()`. -/
def source_image {ε : Type} (source : String → Except ε Bytes)
    (json : JsonRoot) (entry : Image) : Run (AsyncImage ε) × List String :=
  match image_format entry.mimeType with
  | .panic m => (.panic m, [])
  | .ok format =>
    match entry.uri with
    | some uri => (.ok (.Owned (source uri) format), [uri])
    | none =>
      match entry.bufferView with
      | some index =>
        match json.bufferViews[index]? with
        | none => (.panic ("index out of bounds"), [])
        | some bv =>
          match format with
          | some f =>
            (.ok (.Borrowed bv.buffer bv.byteOffset bv.byteLength f), [])
          | none => (.panic ("called Option::unwrap on a None value"), [])
      | none => (.panic ("entered unreachable code"), [])

/-- `source_images` (standard.rs lines 124-155): one descriptor per image
entry, in entry order. -/
def source_images {ε : Type} (source : String → Except ε Bytes)
    (json : JsonRoot) : List Image → Run (List (AsyncImage ε)) × List String
  | [] => (.ok [], [])
  | entry :: rest =>
    match source_image source json entry with
    | (.panic m, us) => (.panic m, us)
    | (.ok img, us) =>
      match source_images source json rest with
      | (.panic m, vs) => (.panic m, us ++ vs)
      | (.ok imgs, vs) => (.ok (img :: imgs), us ++ vs)

/-- `future::join_all` over the buffer fetches: resolves each shared byte
future in order and stops at the first error. -/
def join_all_buffers {ε J E : Type} :
    List (Except ε Bytes) → Except (Error ε J E) (List Bytes)
  | [] => .ok []
  | fetch :: rest =>
    match Data.resolve fetch with
    | .error e => .error e
    | .ok b =>
      match join_all_buffers rest with
      | .error e => .error e
      | .ok bs => .ok (b :: bs)

/-- `<AsyncImage as Future>::poll` (standard.rs lines 55-81): a borrowed
descriptor is immediately ready; an owned descriptor resolves its shared byte
future. -/
def resolve_image {ε J E : Type} :
    AsyncImage ε → Except (Error ε J E) EncodedImage
  | .Borrowed index offset len format => .ok (.Borrowed index offset len format)
  | .Owned data format =>
    match Data.resolve (J := J) (E := E) data with
    | .error e => .error e
    | .ok b => .ok (.Owned b format)

/-- `future::join_all` over the image descriptors. -/
def join_all_images {ε J E : Type} :
    List (AsyncImage ε) → Except (Error ε J E) (List EncodedImage)
  | [] => .ok []
  | img :: rest =>
    match resolve_image (J := J) (E := E) img with
    | .error e => .error e
    | .ok enc =>
      match join_all_images rest with
      | .error e => .error e
      | .ok encs => .ok (enc :: encs)

/-- The per-descriptor arm of `decode_images` (standard.rs lines 163-175):
borrowed data is sliced as `buffers[index][offset..offset+len]` (panicking on
an out-of-range index or slice) and decoded with the declared format; owned
data is decoded with the declared format when present, and by content
auto-detection (`load_from_memory`) otherwise.  The codec calls are the
parameters `dW` (`load_from_memory_with_format`) and `dA`
(`load_from_memory`). -/
def decode_image {E P : Type} (dW : Bytes → ImageFormat → Except E P)
    (dA : Bytes → Except E P) (buffers : List Bytes) :
    EncodedImage → Run (Except E P)
  | .Borrowed index offset len format =>
    match buffers[index]? with
    | none => .panic ("index out of bounds")
    | some buf =>
      if offset + len ≤ buf.length then
        .ok (dW ((buf.drop offset).take len) format)
      else .panic ("slice index out of range")
  | .Owned data (some format) => .ok (dW data format)
  | .Owned data none => .ok (dA data)

/-- `decode_images` (standard.rs lines 157-178): decode the descriptors in
order, collecting into an `ImageResult<Vec<_>>`; collection stops at the first
decode error, so later descriptors are not touched after a failure. -/
def decode_images {E P : Type} (dW : Bytes → ImageFormat → Except E P)
    (dA : Bytes → Except E P) (buffers : List Bytes) :
    List EncodedImage → Run (Except E (List P))
  | [] => .ok (.ok [])
  | img :: rest =>
    match decode_image dW dA buffers img with
    | .panic m => .panic m
    | .ok (.error e) => .ok (.error e)
    | .ok (.ok d) =>
      match decode_images dW dA buffers rest with
      | .panic m => .panic m
      | .ok (.error e) => .ok (.error e)
      | .ok (.ok ds) => .ok (.ok (d :: ds))

/-- The validation stage of `import` (standard.rs lines 192-225): `Skip` wraps
the parsed JSON unchecked; `Minimal` and `Complete` run the corresponding
external rule set to completion, collecting every reported `(path, error)`
pair in order (the collector closure only pushes, so the collected vector is
exactly the validator's report, modelled as the value of `vmin`/`vcomp`), and
fail with the full list exactly when it is non-empty. -/
def validate_stage (vmin vcomp : JsonRoot → List (Path × VError))
    (config : Config) (json : JsonRoot) :
    Except (List (Path × VError)) Root :=
  match config.validation_strategy with
  | .Skip => .ok (Root.new json)
  | .Minimal =>
    let errs := vmin json
    if errs.isEmpty then .ok (Root.new json) else .error errs
  | .Complete =>
    let errs := vcomp json
    if errs.isEmpty then .ok (Root.new json) else .error errs

/-- `standard::import` (standard.rs lines 180-245): parse, validate, source
buffers and images, join all fetches, decode images, and wrap the root.  The
first component is the pipeline outcome; the second is the ordered list of
URIs passed to `source_external_data`. -/
def standard_import {ε J E P : Type}
    (parse : Bytes → Except J JsonRoot)
    (vmin vcomp : JsonRoot → List (Path × VError))
    (dW : Bytes → ImageFormat → Except E P)
    (dA : Bytes → Except E P)
    (data : Bytes) (source : String → Except ε Bytes) (config : Config) :
    RResult (Error ε J E) Gltf × List String :=
  match parse data with
  | .error e => (.err (.MalformedJson e), [])
  | .ok json =>
    match validate_stage vmin vcomp config json with
    | .error errs => (.err (.Validation errs), [])
    | .ok root =>
      match source_buffers source root.json.buffers with
      | (.panic m, us) => (.panic m, us)
      | (.ok bufs, us) =>
        match source_images source root.json root.json.images with
        | (.panic m, vs) => (.panic m, us ++ vs)
        | (.ok imgs, vs) =>
          match join_all_buffers (J := J) (E := E) bufs with
          | .error e => (.err e, us ++ vs)
          | .ok buffers =>
            match join_all_images (J := J) (E := E) imgs with
            | .error e => (.err e, us ++ vs)
            | .ok encoded =>
              match decode_images dW dA buffers encoded with
              | .panic m => (.panic m, us ++ vs)
              | .ok (.error e) => (.err (.Decode e), us ++ vs)
              | .ok (.ok _decoded) => (.ok (Gltf.new root), us ++ vs)

/-- The two import paths the dispatcher can select. -/
inductive ImportPath
  | binary
  | standard
deriving DecidableEq

/-- The binary-container magic tag: the four ASCII bytes of the string used in
`data.starts_with(b"glTF")` (lib.rs line 111). -/
def glTF_magic : Bytes := [0x67, 0x6C, 0x54, 0x46]

/-- The dispatch decision of `Import::custom` (lib.rs lines 110-116): the
binary path exactly when the root document bytes start with the magic tag,
the standard path otherwise. -/
def custom_dispatch (data : Bytes) : ImportPath :=
  if glTF_magic.isPrefixOf data then .binary else .standard

/-- Example document with two buffer entries declaring the same URI. -/
def docTwoBuffers : JsonRoot :=
  ⟨[⟨some ("a.bin"), 4⟩, ⟨some ("a.bin"), 4⟩], [], [], ⟨("2.0")⟩⟩

/-- Example document whose single buffer entry has no URI. -/
def docBufferNoUri : JsonRoot := ⟨[⟨none, 0⟩], [], [], ⟨("2.0")⟩⟩

/-- Example document whose single image entry has neither a URI nor a
buffer-view reference. -/
def docImageNoSource : JsonRoot := ⟨[], [], [⟨none, none, none⟩], ⟨("2.0")⟩⟩

/-- Example document whose single image declares an unrecognized MIME type. -/
def docImageBadMime : JsonRoot :=
  ⟨[], [], [⟨some ("i.gif"), some ("image/gif"), none⟩], ⟨("2.0")⟩⟩

/-- Example document declaring schema version "1.0". -/
def docVersion10 : JsonRoot := ⟨[], [], [], ⟨("1.0")⟩⟩

/-- Example document with one buffer with a URI and two images borrowing
ranges from it through a buffer view. -/
def docFetchW : JsonRoot :=
  ⟨[⟨some ("a.bin"), 4⟩], [⟨0, 0, 2⟩],
    [⟨none, some ("image/png"), some 0⟩, ⟨none, some ("image/png"), some 0⟩],
    ⟨("2.0")⟩⟩

/-- Example document with a single owned image with a declared PNG type. -/
def docOneImage : JsonRoot :=
  ⟨[], [], [⟨some ("i.png"), some ("image/png"), none⟩], ⟨("2.0")⟩⟩

/-! ## Theorems -/

/-- Beginning with the magic tag is a condition on the first four bytes. -/
theorem glTF_magic_prefix_iff (data : Bytes) :
    glTF_magic <+: data ↔ List.take 4 data = glTF_magic := by
  rw [List.prefix_iff_eq_take]
  exact ⟨fun h => h.symm, fun h => h.symm⟩

/-- The dispatch decision as a function of the first four bytes. -/
theorem custom_dispatch_take4 (d : Bytes) :
    custom_dispatch d =
      if List.take 4 d = glTF_magic then ImportPath.binary
      else ImportPath.standard := by
  unfold custom_dispatch
  by_cases hp : glTF_magic <+: d
  · rw [if_pos (List.isPrefixOf_iff_prefix.mpr hp),
      if_pos ((glTF_magic_prefix_iff d).mp hp)]
  · rw [if_neg (fun c => hp (List.isPrefixOf_iff_prefix.mp c)),
      if_neg (fun c => hp ((glTF_magic_prefix_iff d).mpr c))]

/-- C1: the importer dispatches to the binary-container path iff the root
document bytes begin with the 4-byte ASCII magic tag "glTF", and otherwise to
the standard path; the decision depends only on the first 4 bytes. -/
theorem custom_dispatch_spec :
    (∀ data : Bytes, custom_dispatch data = ImportPath.binary ↔
      glTF_magic <+: data) ∧
    (∀ data : Bytes, custom_dispatch data = ImportPath.standard ↔
      ¬ glTF_magic <+: data) ∧
    (∀ d₁ d₂ : Bytes, List.take 4 d₁ = List.take 4 d₂ →
      custom_dispatch d₁ = custom_dispatch d₂) := by
  refine ⟨fun data => ?_, fun data => ?_, fun d₁ d₂ h => ?_⟩
  · unfold custom_dispatch
    by_cases hp : glTF_magic <+: data
    · simp [List.isPrefixOf_iff_prefix, hp]
    · simp [List.isPrefixOf_iff_prefix, hp]
  · unfold custom_dispatch
    by_cases hp : glTF_magic <+: data
    · simp [List.isPrefixOf_iff_prefix, hp]
    · simp [List.isPrefixOf_iff_prefix, hp]
  · rw [custom_dispatch_take4 d₁, custom_dispatch_take4 d₂, h]

/-- Witness for C1 at concrete inputs: a document starting with the magic tag
dispatches to the binary path, and two documents agreeing on their first four
bytes dispatch identically. -/
theorem custom_dispatch_spec_witness :
    custom_dispatch [0x67, 0x6C, 0x54, 0x46, 0] = ImportPath.binary ∧
    custom_dispatch [0x67, 0x6C, 0x54, 0x46, 0] =
      custom_dispatch [0x67, 0x6C, 0x54, 0x46, 1] := by
  constructor
  · exact (custom_dispatch_spec.1 _).mpr (by decide)
  · exact custom_dispatch_spec.2.2 _ _ (by decide)

/-- C2: with the Minimal or Complete strategy the validation stage runs the
rule set to completion, and fails with the full ordered list of collected
(path, error) pairs exactly when that list is non-empty; otherwise it proceeds
with the wrapped document. -/
theorem validate_stage_spec (vmin vcomp : JsonRoot → List (Path × VError))
    (json : JsonRoot) :
    (vmin json ≠ [] →
      validate_stage vmin vcomp ⟨.Minimal⟩ json = .error (vmin json)) ∧
    (vmin json = [] →
      validate_stage vmin vcomp ⟨.Minimal⟩ json = .ok (Root.new json)) ∧
    (∀ errs, validate_stage vmin vcomp ⟨.Minimal⟩ json = .error errs →
      errs = vmin json ∧ vmin json ≠ []) ∧
    (vcomp json ≠ [] →
      validate_stage vmin vcomp ⟨.Complete⟩ json = .error (vcomp json)) ∧
    (vcomp json = [] →
      validate_stage vmin vcomp ⟨.Complete⟩ json = .ok (Root.new json)) ∧
    (∀ errs, validate_stage vmin vcomp ⟨.Complete⟩ json = .error errs →
      errs = vcomp json ∧ vcomp json ≠ []) := by
  unfold validate_stage
  by_cases hm : vmin json = [] <;> by_cases hc : vcomp json = [] <;>
    simp [hm, hc]

/-- Witness for C2 at concrete inputs: a validator reporting one violation
fails the stage with exactly that list; an empty report proceeds with the
wrapped document. -/
theorem validate_stage_spec_witness :
    validate_stage (fun _ => [(("images"), ("missing"))]) (fun _ => [])
        ⟨.Minimal⟩ ⟨[], [], [], ⟨("2.0")⟩⟩ =
      .error [(("images"), ("missing"))] ∧
    validate_stage (fun _ => [(("images"), ("missing"))]) (fun _ => [])
        ⟨.Complete⟩ ⟨[], [], [], ⟨("2.0")⟩⟩ =
      .ok (Root.new ⟨[], [], [], ⟨("2.0")⟩⟩) := by
  constructor
  · exact (validate_stage_spec _ _ _).1 (by decide)
  · exact (validate_stage_spec _ _ _).2.2.2.2.1 rfl

/-- When `source_buffers` completes without panicking, its fetch trace is the
list of declared buffer URIs in entry order. -/
theorem source_buffers_trace {ε : Type} (source : String → Except ε Bytes) :
    ∀ (entries : List Buffer) (bufs : List (Except ε Bytes)) (us : List String),
      source_buffers source entries = (.ok bufs, us) →
      us = entries.filterMap Buffer.uri := by
  intro entries
  induction entries with
  | nil =>
    intro bufs us h
    simp [source_buffers] at h
    simp [h.2]
  | cons entry rest ih =>
    intro bufs us h
    rw [source_buffers, source_buffer] at h
    cases hu : entry.uri with
    | none => rw [hu] at h; simp at h
    | some uri =>
      rw [hu] at h
      rcases hrest : source_buffers source rest with ⟨r, vs⟩
      cases r with
      | panic m => rw [hrest] at h; simp at h
      | ok fetches =>
        rw [hrest] at h
        simp at h
        obtain ⟨h1, h2⟩ := h
        rw [← h2, ih fetches vs (by rw [hrest])]
        simp [List.filterMap_cons, hu]

/-- When `source_images` completes without panicking, its fetch trace is the
list of declared image URIs in entry order (borrowed images fetch nothing). -/
theorem source_images_trace {ε : Type} (source : String → Except ε Bytes)
    (json : JsonRoot) :
    ∀ (entries : List Image) (imgs : List (AsyncImage ε)) (vs : List String),
      source_images source json entries = (.ok imgs, vs) →
      vs = entries.filterMap Image.uri := by
  intro entries
  induction entries with
  | nil =>
    intro imgs vs h
    simp [source_images] at h
    simp [h.2]
  | cons entry rest ih =>
    intro imgs vs h
    rw [source_images] at h
    rcases hentry : source_image source json entry with ⟨r, us⟩
    rw [hentry] at h
    cases r with
    | panic m => simp at h
    | ok img =>
      rcases hrest : source_images source json rest with ⟨r2, ws⟩
      rw [hrest] at h
      cases r2 with
      | panic m => simp at h
      | ok imgs2 =>
        simp at h
        have hus : us = entry.uri.toList := by
          rw [source_image] at hentry
          cases hf : image_format entry.mimeType with
          | panic m =>
            simp only [hf] at hentry
            simp at hentry
          | ok format =>
            simp only [hf] at hentry
            cases hu : entry.uri with
            | some uri =>
              simp only [hu] at hentry
              simp at hentry
              rw [← hentry.2]
              rfl
            | none =>
              simp only [hu] at hentry
              cases hbv : entry.bufferView with
              | none =>
                simp only [hbv] at hentry
                simp at hentry
              | some index =>
                simp only [hbv] at hentry
                cases hlv : json.bufferViews[index]? with
                | none =>
                  simp only [hlv] at hentry
                  simp at hentry
                | some bv =>
                  simp only [hlv] at hentry
                  cases format with
                  | none => simp at hentry
                  | some f =>
                    simp at hentry
                    rw [hentry.2]
                    rfl
        obtain ⟨h1, h2⟩ := h
        rw [← h2, hus, ih imgs2 ws (by rw [hrest])]
        cases hu2 : entry.uri <;> simp [List.filterMap_cons, hu2]

/-- Counting occurrences in a `filterMap` over an optional-string field. -/
theorem count_filterMap_eq_countP {α : Type} (f : α → Option String)
    (l : List α) (u : String) :
    (l.filterMap f).count u = l.countP (fun a => f a == some u) := by
  induction l with
  | nil => rfl
  | cons a t ih =>
    cases hf : f a with
    | none => simp [List.filterMap_cons, hf, List.countP_cons, ih]
    | some v =>
      by_cases hv : v = u <;>
        simp [List.filterMap_cons, hf, List.countP_cons, ih, List.count_cons, hv]

/-- On any run that reaches the fetch stage without panicking there, the fetch
trace of the import is the buffer trace followed by the image trace. -/
theorem standard_import_trace {ε J E P : Type}
    (parse : Bytes → Except J JsonRoot)
    (vmin vcomp : JsonRoot → List (Path × VError))
    (dW : Bytes → ImageFormat → Except E P)
    (dA : Bytes → Except E P)
    (data : Bytes) (source : String → Except ε Bytes) (config : Config)
    (json : JsonRoot) (root : Root) (bufs : List (Except ε Bytes))
    (us : List String) (imgs : List (AsyncImage ε)) (vs : List String)
    (hp : parse data = .ok json)
    (hv : validate_stage vmin vcomp config json = .ok root)
    (hb : source_buffers source root.json.buffers = (.ok bufs, us))
    (hi : source_images source root.json root.json.images = (.ok imgs, vs)) :
    (standard_import parse vmin vcomp dW dA data source config).2 = us ++ vs := by
  unfold standard_import
  simp only [hp, hv, hb, hi]
  split
  · rfl
  · split
    · rfl
    · split <;> rfl

/-- C3 counterexample: a document with two buffer entries both declaring the
URI "a.bin" (two independent references to the same URI) issues two fetches of
that URI, not one. -/
theorem shared_fetch_counterexample :
    (standard_import (ε := String) (J := String) (E := String)
        (P := Nat)
        (fun _ => .ok docTwoBuffers)
        (fun _ => []) (fun _ => [])
        (fun _ _ => .ok 0) (fun _ => .ok 0)
        [] (fun _ => .ok [0, 0, 0, 0]) ⟨.Skip⟩).2.count ("a.bin") = 2 :=
  rfl

/-- C3 amended: fetches are not deduplicated by URI.  When the sourcing stage
completes without panicking, the import invokes `source_external_data` on each
URI exactly once per buffer entry plus once per image entry declaring it;
borrowed images trigger no fetch of their own, so a buffer entry with a URI is
fetched exactly once however many images borrow ranges from it. -/
theorem standard_import_fetch_count {ε J E P : Type}
    (parse : Bytes → Except J JsonRoot)
    (vmin vcomp : JsonRoot → List (Path × VError))
    (dW : Bytes → ImageFormat → Except E P)
    (dA : Bytes → Except E P)
    (data : Bytes) (source : String → Except ε Bytes) (config : Config)
    (json : JsonRoot) (root : Root) (bufs : List (Except ε Bytes))
    (us : List String) (imgs : List (AsyncImage ε)) (vs : List String)
    (hp : parse data = .ok json)
    (hv : validate_stage vmin vcomp config json = .ok root)
    (hb : source_buffers source root.json.buffers = (.ok bufs, us))
    (hi : source_images source root.json root.json.images = (.ok imgs, vs)) :
    ∀ u : String,
      ((standard_import parse vmin vcomp dW dA data source config).2).count u =
        root.json.buffers.countP (fun b => b.uri == some u) +
        root.json.images.countP (fun i => i.uri == some u) := by
  intro u
  rw [standard_import_trace parse vmin vcomp dW dA data source config
      json root bufs us imgs vs hp hv hb hi]
  rw [List.count_append,
    source_buffers_trace source root.json.buffers bufs us hb,
    source_images_trace source root.json root.json.images imgs vs hi,
    count_filterMap_eq_countP, count_filterMap_eq_countP]

/-- Witness for the C3 amended theorem: with one buffer entry "a.bin" and two
images borrowing ranges from it, "a.bin" is fetched exactly once. -/
theorem standard_import_fetch_count_witness :
    (standard_import (ε := String) (J := String) (E := String)
        (P := Nat)
        (fun _ => .ok docFetchW) (fun _ => []) (fun _ => [])
        (fun _ _ => .ok 0) (fun _ => .ok 0)
        [] (fun _ => .ok [9, 9, 9, 9]) ⟨.Skip⟩).2.count ("a.bin") = 1 := by
  have h := standard_import_fetch_count
    (ε := String) (J := String) (E := String) (P := Nat)
    (fun _ => .ok docFetchW) (fun _ => []) (fun _ => [])
    (fun _ _ => .ok 0) (fun _ => .ok 0)
    [] (fun _ => .ok [9, 9, 9, 9]) ⟨.Skip⟩
    docFetchW (Root.new docFetchW)
    [.ok [9, 9, 9, 9]] [("a.bin")]
    [.Borrowed 0 0 2 .PNG, .Borrowed 0 0 2 .PNG] []
    rfl rfl rfl rfl ("a.bin")
  exact h.trans (by decide)

/-- An error produced by joining the buffer fetches is a shared-wrapped
source error. -/
theorem join_all_buffers_err_shape {ε J E : Type} :
    ∀ (bufs : List (Except ε Bytes)) (e : Error ε J E),
      join_all_buffers bufs = .error e → ∃ e₀, e = .Shared (.Source e₀) := by
  intro bufs
  induction bufs with
  | nil => intro e h; simp [join_all_buffers] at h
  | cons fetch rest ih =>
    intro e h
    rw [join_all_buffers] at h
    cases hf : fetch with
    | error e₀ =>
      simp only [hf, Data.resolve] at h
      simp at h
      exact ⟨e₀, h.symm⟩
    | ok b =>
      simp only [hf, Data.resolve] at h
      cases hrest : join_all_buffers (J := J) (E := E) rest with
      | error e2 =>
        rw [hrest] at h
        simp at h
        exact h ▸ ih e2 hrest
      | ok bs => rw [hrest] at h; simp at h

/-- An error produced by resolving one image descriptor is a shared-wrapped
source error. -/
theorem resolve_image_err_shape {ε J E : Type} (img : AsyncImage ε)
    (e : Error ε J E) :
    resolve_image img = .error e → ∃ e₀, e = .Shared (.Source e₀) := by
  cases img with
  | Borrowed i o l f => intro h; simp [resolve_image] at h
  | Owned data format =>
    intro h
    rw [resolve_image] at h
    cases hd : data with
    | error e₀ =>
      simp only [hd, Data.resolve] at h
      simp at h
      exact ⟨e₀, h.symm⟩
    | ok b => simp only [hd, Data.resolve] at h; simp at h

/-- An error produced by joining the image resolutions is a shared-wrapped
source error. -/
theorem join_all_images_err_shape {ε J E : Type} :
    ∀ (imgs : List (AsyncImage ε)) (e : Error ε J E),
      join_all_images imgs = .error e → ∃ e₀, e = .Shared (.Source e₀) := by
  intro imgs
  induction imgs with
  | nil => intro e h; simp [join_all_images] at h
  | cons img rest ih =>
    intro e h
    rw [join_all_images] at h
    cases hr : resolve_image (J := J) (E := E) img with
    | error e₀ =>
      rw [hr] at h
      simp at h
      exact h ▸ resolve_image_err_shape img e₀ hr
    | ok enc =>
      rw [hr] at h
      cases hrest : join_all_images (J := J) (E := E) rest with
      | error e2 =>
        rw [hrest] at h
        simp at h
        exact h ▸ ih e2 hrest
      | ok encs => rw [hrest] at h; simp at h

/-- When a buffer fetch fails, the import fails with that fetch's (wrapped)
error. -/
theorem standard_import_buffer_fetch_err {ε J E P : Type}
    (parse : Bytes → Except J JsonRoot)
    (vmin vcomp : JsonRoot → List (Path × VError))
    (dW : Bytes → ImageFormat → Except E P)
    (dA : Bytes → Except E P)
    (data : Bytes) (source : String → Except ε Bytes) (config : Config)
    (json : JsonRoot) (root : Root) (bufs : List (Except ε Bytes))
    (us : List String) (imgs : List (AsyncImage ε)) (vs : List String)
    (e : Error ε J E)
    (hp : parse data = .ok json)
    (hv : validate_stage vmin vcomp config json = .ok root)
    (hb : source_buffers source root.json.buffers = (.ok bufs, us))
    (hi : source_images source root.json root.json.images = (.ok imgs, vs))
    (hjb : join_all_buffers bufs = .error e) :
    (standard_import parse vmin vcomp dW dA data source config).1 = .err e := by
  unfold standard_import
  simp only [hp, hv, hb, hi, hjb]

/-- When the buffer fetches succeed but an image fetch fails, the import fails
with that fetch's (wrapped) error. -/
theorem standard_import_image_fetch_err {ε J E P : Type}
    (parse : Bytes → Except J JsonRoot)
    (vmin vcomp : JsonRoot → List (Path × VError))
    (dW : Bytes → ImageFormat → Except E P)
    (dA : Bytes → Except E P)
    (data : Bytes) (source : String → Except ε Bytes) (config : Config)
    (json : JsonRoot) (root : Root) (bufs : List (Except ε Bytes))
    (us : List String) (imgs : List (AsyncImage ε)) (vs : List String)
    (buffers : List Bytes) (e : Error ε J E)
    (hp : parse data = .ok json)
    (hv : validate_stage vmin vcomp config json = .ok root)
    (hb : source_buffers source root.json.buffers = (.ok bufs, us))
    (hi : source_images source root.json root.json.images = (.ok imgs, vs))
    (hjb : join_all_buffers (J := J) (E := E) bufs =
      .ok buffers)
    (hji : join_all_images (J := J) (E := E) imgs = .error e) :
    (standard_import parse vmin vcomp dW dA data source config).1 = .err e := by
  unfold standard_import
  simp only [hp, hv, hb, hi, hjb, hji]

/-- When all fetches succeed but a decode fails, the import fails with the
corresponding image-decode error. -/
theorem standard_import_decode_err {ε J E P : Type}
    (parse : Bytes → Except J JsonRoot)
    (vmin vcomp : JsonRoot → List (Path × VError))
    (dW : Bytes → ImageFormat → Except E P)
    (dA : Bytes → Except E P)
    (data : Bytes) (source : String → Except ε Bytes) (config : Config)
    (json : JsonRoot) (root : Root) (bufs : List (Except ε Bytes))
    (us : List String) (imgs : List (AsyncImage ε)) (vs : List String)
    (buffers : List Bytes) (encoded : List EncodedImage) (i : E)
    (hp : parse data = .ok json)
    (hv : validate_stage vmin vcomp config json = .ok root)
    (hb : source_buffers source root.json.buffers = (.ok bufs, us))
    (hi : source_images source root.json root.json.images = (.ok imgs, vs))
    (hjb : join_all_buffers (J := J) (E := E) bufs =
      .ok buffers)
    (hji : join_all_images (J := J) (E := E) imgs = .ok encoded)
    (hd : decode_images dW dA buffers encoded = .ok (.error i)) :
    (standard_import parse vmin vcomp dW dA data source config).1 =
      .err (.Decode i) := by
  unfold standard_import
  simp only [hp, hv, hb, hi, hjb, hji, hd]

/-- Every error the import can return is a parse error, a validation failure
reported by the configured validator, a shared-wrapped source error from a
fetch, or an image-decode error. -/
theorem standard_import_err_cases {ε J E P : Type}
    (parse : Bytes → Except J JsonRoot)
    (vmin vcomp : JsonRoot → List (Path × VError))
    (dW : Bytes → ImageFormat → Except E P)
    (dA : Bytes → Except E P)
    (data : Bytes) (source : String → Except ε Bytes) (config : Config)
    (e : Error ε J E)
    (h : (standard_import parse vmin vcomp dW dA data source config).1 =
      .err e) :
    (∃ j, e = .MalformedJson j) ∨
    (∃ json l, parse data = .ok json ∧
      validate_stage vmin vcomp config json = .error l ∧ e = .Validation l) ∨
    (∃ e₀, e = .Shared (.Source e₀)) ∨
    (∃ i, e = .Decode i) := by
  unfold standard_import at h
  cases hp : parse data with
  | error j =>
    simp only [hp] at h
    simp at h
    exact .inl ⟨j, h.symm⟩
  | ok json =>
    simp only [hp] at h
    cases hv : validate_stage vmin vcomp config json with
    | error l =>
      simp only [hv] at h
      simp at h
      exact .inr (.inl ⟨json, l, rfl, hv, h.symm⟩)
    | ok root =>
      simp only [hv] at h
      rcases hb : source_buffers source root.json.buffers with ⟨r, us⟩
      cases r with
      | panic m => simp only [hb] at h; simp at h
      | ok bufs =>
        simp only [hb] at h
        rcases hi : source_images source root.json root.json.images with ⟨r2, vs⟩
        cases r2 with
        | panic m => simp only [hi] at h; simp at h
        | ok imgs =>
          simp only [hi] at h
          cases hjb : join_all_buffers (J := J) (E := E) bufs with
          | error e2 =>
            simp only [hjb] at h
            simp at h
            exact .inr (.inr (.inl (h ▸ join_all_buffers_err_shape bufs e2 hjb)))
          | ok buffers =>
            simp only [hjb] at h
            cases hji : join_all_images (J := J) (E := E) imgs with
            | error e2 =>
              simp only [hji] at h
              simp at h
              exact .inr (.inr (.inl (h ▸ join_all_images_err_shape imgs e2 hji)))
            | ok encoded =>
              simp only [hji] at h
              cases hd : decode_images dW dA buffers encoded with
              | panic m => simp only [hd] at h; simp at h
              | ok r3 =>
                cases r3 with
                | error i =>
                  simp only [hd] at h
                  simp at h
                  exact .inr (.inr (.inr ⟨i, h.symm⟩))
                | ok ds => simp only [hd] at h; simp at h

/-- C4 counterexample: a well-formed document whose single buffer entry has no
URI does not import successfully under Skip validation: the import panics in
the buffer-sourcing stage. -/
theorem skip_import_counterexample :
    ((standard_import (ε := String) (J := String) (E := String)
        (P := Nat)
        (fun _ => .ok docBufferNoUri) (fun _ => []) (fun _ => [])
        (fun _ _ => .ok 0) (fun _ => .ok 0) [] (fun _ => .ok [])
        ⟨.Skip⟩).1).isOk = false ∧
    (standard_import (ε := String) (J := String) (E := String)
        (P := Nat)
        (fun _ => .ok docBufferNoUri) (fun _ => []) (fun _ => [])
        (fun _ _ => .ok 0) (fun _ => .ok 0) [] (fun _ => .ok [])
        ⟨.Skip⟩).1 = .panic ("called Option::unwrap on a None value") :=
  ⟨rfl, rfl⟩

/-- C4 amended: with Skip the validation stage performs no checking and always
wraps the parsed JSON, and the import never fails with a Validation error;
but a well-formed document may still panic or fail in the resolution and
decoding stages, so import under Skip does not succeed for every well-formed
document. -/
theorem skip_no_validation_error {ε J E P : Type}
    (parse : Bytes → Except J JsonRoot)
    (vmin vcomp : JsonRoot → List (Path × VError))
    (dW : Bytes → ImageFormat → Except E P)
    (dA : Bytes → Except E P)
    (data : Bytes) (source : String → Except ε Bytes) :
    (∀ json : JsonRoot,
      validate_stage vmin vcomp ⟨.Skip⟩ json = .ok (Root.new json)) ∧
    (∀ errs, (standard_import parse vmin vcomp dW dA data source ⟨.Skip⟩).1 ≠
      .err (.Validation errs)) := by
  constructor
  · intro json; rfl
  · intro errs h
    rcases standard_import_err_cases parse vmin vcomp dW dA data source
        ⟨.Skip⟩ _ h with
      ⟨j, hj⟩ | ⟨json, l, _, hvs, _⟩ | ⟨e₀, he⟩ | ⟨i, hi⟩
    · exact Error.noConfusion hj
    · exact Except.noConfusion hvs
    · exact Error.noConfusion he
    · exact Error.noConfusion hi

/-- Witness for the C4 amended theorem at concrete inputs. -/
theorem skip_no_validation_error_witness :
    validate_stage (fun _ => [(("x"), ("y"))]) (fun _ => [(("x"), ("y"))])
      ⟨.Skip⟩ docTwoBuffers = .ok (Root.new docTwoBuffers) ∧
    (standard_import (ε := String) (J := String) (E := String)
        (P := Nat)
        (fun _ => .ok docTwoBuffers) (fun _ => [(("x"), ("y"))])
        (fun _ => [(("x"), ("y"))])
        (fun _ _ => .ok 0) (fun _ => .ok 0) [] (fun _ => .ok [])
        ⟨.Skip⟩).1 ≠ .err (.Validation [(("x"), ("y"))]) := by
  constructor
  · exact (skip_no_validation_error (ε := String) (J := String)
      (E := String) (P := Nat) (fun _ => .ok docTwoBuffers)
      (fun _ => [(("x"), ("y"))]) (fun _ => [(("x"), ("y"))])
      (fun _ _ => .ok 0) (fun _ => .ok 0) [] (fun _ => .ok [])).1 docTwoBuffers
  · exact (skip_no_validation_error (ε := String) (J := String)
      (E := String) (P := Nat) (fun _ => .ok docTwoBuffers)
      (fun _ => [(("x"), ("y"))]) (fun _ => [(("x"), ("y"))])
      (fun _ _ => .ok 0) (fun _ => .ok 0) [] (fun _ => .ok [])).2
      [(("x"), ("y"))]

/-- C5: an image entry with neither a URI nor a buffer-view reference hits
`unreachable!()` in `source_images`: at a concrete such document (under Skip
validation, where the external rule set cannot intervene) the import panics
instead of returning a Validation error. -/
theorem image_without_source_panics :
    (standard_import (ε := String) (J := String) (E := String)
        (P := Nat)
        (fun _ => .ok docImageNoSource) (fun _ => []) (fun _ => [])
        (fun _ _ => .ok 0) (fun _ => .ok 0) [] (fun _ => .ok [])
        ⟨.Skip⟩).1 = .panic ("entered unreachable code") ∧
    ((standard_import (ε := String) (J := String) (E := String)
        (P := Nat)
        (fun _ => .ok docImageNoSource) (fun _ => []) (fun _ => [])
        (fun _ _ => .ok 0) (fun _ => .ok 0) [] (fun _ => .ok [])
        ⟨.Skip⟩).1).isOk = false :=
  ⟨rfl, rfl⟩

/-- C6 counterexample: an image declaring an unrecognized MIME type makes
the import terminate abruptly (a panic via `unreachable!()`), not return an
error value. -/
theorem panic_on_unrecognized_mime :
    (standard_import (ε := String) (J := String) (E := String)
        (P := Nat)
        (fun _ => .ok docImageBadMime) (fun _ => []) (fun _ => [])
        (fun _ _ => .ok 0) (fun _ => .ok 0) [] (fun _ => .ok [])
        ⟨.Skip⟩).1 = .panic ("entered unreachable code") ∧
    ((standard_import (ε := String) (J := String) (E := String)
        (P := Nat)
        (fun _ => .ok docImageBadMime) (fun _ => []) (fun _ => [])
        (fun _ _ => .ok 0) (fun _ => .ok 0) [] (fun _ => .ok [])
        ⟨.Skip⟩).1).isPanic = true :=
  ⟨rfl, rfl⟩

/-- A buffer entry without a URI makes the buffer-sourcing stage panic. -/
theorem source_buffers_panics_of_missing_uri {ε : Type}
    (source : String → Except ε Bytes) :
    ∀ entries : List Buffer, (∃ b ∈ entries, b.uri = none) →
      ∃ m us, source_buffers source entries = (.panic m, us) := by
  intro entries
  induction entries with
  | nil => rintro ⟨b, hb, _⟩; exact absurd hb (List.not_mem_nil b)
  | cons entry rest ih =>
    rintro ⟨b, hb, hu⟩
    rw [source_buffers, source_buffer]
    rcases List.mem_cons.mp hb with hhead | htail
    · subst hhead
      rw [hu]
      exact ⟨_, _, rfl⟩
    · cases hentry : entry.uri with
      | none => exact ⟨_, _, rfl⟩
      | some uri =>
        obtain ⟨m, us, hrec⟩ := ih ⟨b, htail, hu⟩
        rw [hrec]
        exact ⟨m, [uri] ++ us, rfl⟩

/-- C6 amended: image-decode failures and fetch failures (buffer or image)
are surfaced as returned error values (a Decode error, resp. a shared-wrapped
source error), but the sourcing and slicing hazards terminate abruptly: a
buffer entry with no URI, an image declaring an unrecognized MIME type, a
borrowed image without a declared MIME type, an image with neither URI nor
buffer-view, an out-of-range buffer-view index, and an out-of-range buffer
index or byte range at decode time all panic. -/
theorem error_surface_spec {ε J E P : Type}
    (parse : Bytes → Except J JsonRoot)
    (vmin vcomp : JsonRoot → List (Path × VError))
    (dW : Bytes → ImageFormat → Except E P)
    (dA : Bytes → Except E P)
    (data : Bytes) (source : String → Except ε Bytes) (config : Config)
    (jdoc : JsonRoot) :
    (∀ json root bufs us imgs vs e,
      parse data = .ok json →
      validate_stage vmin vcomp config json = .ok root →
      source_buffers source root.json.buffers = (.ok bufs, us) →
      source_images source root.json root.json.images = (.ok imgs, vs) →
      join_all_buffers bufs = .error e →
      (standard_import parse vmin vcomp dW dA data source config).1 = .err e ∧
      ∃ e₀, e = .Shared (.Source e₀)) ∧
    (∀ json root bufs us imgs vs buffers e,
      parse data = .ok json →
      validate_stage vmin vcomp config json = .ok root →
      source_buffers source root.json.buffers = (.ok bufs, us) →
      source_images source root.json root.json.images = (.ok imgs, vs) →
      join_all_buffers (J := J) (E := E) bufs = .ok buffers →
      join_all_images (J := J) (E := E) imgs = .error e →
      (standard_import parse vmin vcomp dW dA data source config).1 = .err e ∧
      ∃ e₀, e = .Shared (.Source e₀)) ∧
    (∀ json root bufs us imgs vs buffers encoded i,
      parse data = .ok json →
      validate_stage vmin vcomp config json = .ok root →
      source_buffers source root.json.buffers = (.ok bufs, us) →
      source_images source root.json root.json.images = (.ok imgs, vs) →
      join_all_buffers (J := J) (E := E) bufs = .ok buffers →
      join_all_images (J := J) (E := E) imgs = .ok encoded →
      decode_images dW dA buffers encoded = .ok (.error i) →
      (standard_import parse vmin vcomp dW dA data source config).1 =
        .err (.Decode i)) ∧
    (∀ entries : List Buffer, (∃ b ∈ entries, b.uri = none) →
      ∃ m us, source_buffers source entries = (.panic m, us)) ∧
    (∀ entry s, entry.mimeType = some s → s ≠ "image/jpeg" →
      s ≠ "image/png" →
      (source_image source jdoc entry).1 =
        .panic ("entered unreachable code")) ∧
    (∀ entry i bv, entry.mimeType = none → entry.uri = none →
      entry.bufferView = some i → jdoc.bufferViews[i]? = some bv →
      (source_image source jdoc entry).1 =
        .panic ("called Option::unwrap on a None value")) ∧
    (∀ entry, entry.uri = none → entry.bufferView = none →
      ∃ m, (source_image source jdoc entry).1 = .panic m) ∧
    (∀ entry i, entry.uri = none → entry.bufferView = some i →
      jdoc.bufferViews[i]? = none →
      ∃ m, (source_image source jdoc entry).1 = .panic m) ∧
    (∀ (bs : List Bytes) index offset len format, bs[index]? = none →
      decode_image dW dA bs (.Borrowed index offset len format) =
        .panic ("index out of bounds")) ∧
    (∀ (bs : List Bytes) index offset len format buf, bs[index]? = some buf →
      ¬ offset + len ≤ buf.length →
      decode_image dW dA bs (.Borrowed index offset len format) =
        .panic ("slice index out of range")) := by
  refine ⟨fun json root bufs us imgs vs e hp hv hb hi hjb =>
      ⟨standard_import_buffer_fetch_err parse vmin vcomp dW dA data source
        config json root bufs us imgs vs e hp hv hb hi hjb,
       join_all_buffers_err_shape bufs e hjb⟩,
    fun json root bufs us imgs vs buffers e hp hv hb hi hjb hji =>
      ⟨standard_import_image_fetch_err parse vmin vcomp dW dA data source
        config json root bufs us imgs vs buffers e hp hv hb hi hjb hji,
       join_all_images_err_shape imgs e hji⟩,
    fun json root bufs us imgs vs buffers encoded i hp hv hb hi hjb hji hd =>
      standard_import_decode_err parse vmin vcomp dW dA data source config
        json root bufs us imgs vs buffers encoded i hp hv hb hi hjb hji hd,
    source_buffers_panics_of_missing_uri source,
    fun entry s hm h1 h2 => ?_,
    fun entry i bv hm hu hbv hlv => ?_,
    fun entry hu hbv => ?_,
    fun entry i hu hbv hlv => ?_,
    fun bs index offset len format hidx => ?_,
    fun bs index offset len format buf hbuf hlen => ?_⟩
  · simp [source_image, image_format, hm, h1, h2]
  · simp [source_image, image_format, hm, hu, hbv, hlv]
  · cases hf : image_format entry.mimeType with
    | panic m => exact ⟨m, by simp [source_image, hf]⟩
    | ok format =>
      exact ⟨("entered unreachable code"),
        by simp [source_image, hf, hu, hbv]⟩
  · cases hf : image_format entry.mimeType with
    | panic m => exact ⟨m, by simp [source_image, hf]⟩
    | ok format =>
      exact ⟨("index out of bounds"),
        by simp [source_image, hf, hu, hbv, hlv]⟩
  · simp [decode_image, hidx]
  · simp [decode_image, hbuf, hlen]

/-- Witness for the C6 amended theorem at concrete inputs: a failing buffer
fetch and a failing image fetch surface as returned shared-wrapped source
errors; a buffer entry without a URI panics; a borrowed image without a
declared MIME type panics. -/
theorem error_surface_spec_witness :
    (standard_import (ε := String) (J := String) (E := String)
        (P := Nat)
        (fun _ => .ok docTwoBuffers) (fun _ => []) (fun _ => [])
        (fun _ _ => .ok 0) (fun _ => .ok 0) [] (fun _ => .error ("io"))
        ⟨.Skip⟩).1 = .err (.Shared (.Source ("io"))) ∧
    (standard_import (ε := String) (J := String) (E := String)
        (P := Nat)
        (fun _ => .ok docOneImage) (fun _ => []) (fun _ => [])
        (fun _ _ => .ok 0) (fun _ => .ok 0) [] (fun _ => .error ("io"))
        ⟨.Skip⟩).1 = .err (.Shared (.Source ("io"))) ∧
    (∃ m us, source_buffers (ε := String) (fun _ => .error ("io"))
      [⟨none, 0⟩] = (.panic m, us)) ∧
    (source_image (ε := String) (fun _ => .error ("io")) docFetchW
      ⟨none, none, some 0⟩).1 =
      .panic ("called Option::unwrap on a None value") := by
  refine ⟨?_, ?_, ?_, ?_⟩
  · exact ((error_surface_spec (ε := String) (J := String)
      (E := String) (P := Nat)
      (fun _ => .ok docTwoBuffers) (fun _ => []) (fun _ => [])
      (fun _ _ => .ok 0) (fun _ => .ok 0) [] (fun _ => .error ("io"))
      ⟨.Skip⟩ docFetchW).1 docTwoBuffers (Root.new docTwoBuffers)
      [.error ("io"), .error ("io")] [("a.bin"), ("a.bin")] [] []
      (.Shared (.Source ("io"))) rfl rfl rfl rfl rfl).1
  · exact ((error_surface_spec (ε := String) (J := String)
      (E := String) (P := Nat)
      (fun _ => .ok docOneImage) (fun _ => []) (fun _ => [])
      (fun _ _ => .ok 0) (fun _ => .ok 0) [] (fun _ => .error ("io"))
      ⟨.Skip⟩ docFetchW).2.1 docOneImage (Root.new docOneImage)
      [] [] [.Owned (.error ("io")) (some .PNG)] [("i.png")] []
      (.Shared (.Source ("io"))) rfl rfl rfl rfl rfl rfl).1
  · exact (error_surface_spec (ε := String) (J := String)
      (E := String) (P := Nat)
      (fun _ => .ok docTwoBuffers) (fun _ => []) (fun _ => [])
      (fun _ _ => .ok 0) (fun _ => .ok 0) [] (fun _ => .error ("io"))
      ⟨.Skip⟩ docFetchW).2.2.2.1 [⟨none, 0⟩] (by decide)
  · exact (error_surface_spec (ε := String) (J := String)
      (E := String) (P := Nat)
      (fun _ => .ok docTwoBuffers) (fun _ => []) (fun _ => [])
      (fun _ _ => .ok 0) (fun _ => .ok 0) [] (fun _ => .error ("io"))
      ⟨.Skip⟩ docFetchW).2.2.2.2.2.1 ⟨none, none, some 0⟩ 0 ⟨0, 0, 2⟩
      rfl rfl rfl rfl

/-- C9 counterexample: a document declaring schema version "1.0" imports
successfully under Skip validation; in particular the import does not fail
with IncompatibleVersion. -/
theorem incompatible_version_counterexample :
    standard_import (ε := String) (J := String) (E := String)
        (P := Nat)
        (fun _ => .ok docVersion10) (fun _ => []) (fun _ => [])
        (fun _ _ => .ok 0) (fun _ => .ok 0) [] (fun _ => .ok [])
        ⟨.Skip⟩ =
      (.ok (Gltf.new (Root.new docVersion10)), []) :=
  rfl

/-- C9 amended: the standard import pipeline never constructs the
IncompatibleVersion error variant — no input makes the import fail with it. -/
theorem no_incompatible_version {ε J E P : Type}
    (parse : Bytes → Except J JsonRoot)
    (vmin vcomp : JsonRoot → List (Path × VError))
    (dW : Bytes → ImageFormat → Except E P)
    (dA : Bytes → Except E P)
    (data : Bytes) (source : String → Except ε Bytes) (config : Config)
    (s : String) :
    (standard_import parse vmin vcomp dW dA data source config).1 ≠
      .err (.IncompatibleVersion s) := by
  intro h
  rcases standard_import_err_cases parse vmin vcomp dW dA data source config
      _ h with ⟨j, hj⟩ | ⟨json, l, _, _, hl⟩ | ⟨e₀, he⟩ | ⟨i, hi⟩
  · exact Error.noConfusion hj
  · exact Error.noConfusion hl
  · exact Error.noConfusion he
  · exact Error.noConfusion hi

/-- C7: the stages run strictly in order and short-circuit on failure.  A
parse failure returns MalformedJson with no validation run (the result is the
same for every validator) and no fetch issued (the fetch trace is empty); a
validation failure issues no fetch; a failing buffer or image fetch makes
the import fail with that fetch's (wrapped) error, and image decoding is never
attempted (the result is the same for every decoder). -/
theorem pipeline_short_circuit {ε J E P : Type}
    (parse : Bytes → Except J JsonRoot)
    (vmin vcomp : JsonRoot → List (Path × VError))
    (dW : Bytes → ImageFormat → Except E P)
    (dA : Bytes → Except E P)
    (data : Bytes) (source : String → Except ε Bytes) (config : Config) :
    (∀ e, parse data = .error e →
      standard_import parse vmin vcomp dW dA data source config =
        (.err (.MalformedJson e), [])) ∧
    (∀ json errs, parse data = .ok json →
      validate_stage vmin vcomp config json = .error errs →
      standard_import parse vmin vcomp dW dA data source config =
        (.err (.Validation errs), [])) ∧
    (∀ json root bufs us imgs vs e,
      parse data = .ok json →
      validate_stage vmin vcomp config json = .ok root →
      source_buffers source root.json.buffers = (.ok bufs, us) →
      source_images source root.json root.json.images = (.ok imgs, vs) →
      join_all_buffers (J := J) (E := E) bufs = .error e →
      (standard_import parse vmin vcomp dW dA data source config).1 = .err e ∧
      ∀ (Q : Type) (dW2 : Bytes → ImageFormat → Except E Q)
        (dA2 : Bytes → Except E Q),
        (standard_import parse vmin vcomp dW2 dA2 data source config).1 =
          .err e) ∧
    (∀ json root bufs us imgs vs buffers e,
      parse data = .ok json →
      validate_stage vmin vcomp config json = .ok root →
      source_buffers source root.json.buffers = (.ok bufs, us) →
      source_images source root.json root.json.images = (.ok imgs, vs) →
      join_all_buffers (J := J) (E := E) bufs = .ok buffers →
      join_all_images (J := J) (E := E) imgs = .error e →
      (standard_import parse vmin vcomp dW dA data source config).1 = .err e ∧
      ∀ (Q : Type) (dW2 : Bytes → ImageFormat → Except E Q)
        (dA2 : Bytes → Except E Q),
        (standard_import parse vmin vcomp dW2 dA2 data source config).1 =
          .err e) := by
  refine ⟨fun e hp => ?_, fun json errs hp hv => ?_,
    fun json root bufs us imgs vs e hp hv hb hi hjb =>
      ⟨standard_import_buffer_fetch_err parse vmin vcomp dW dA data source
        config json root bufs us imgs vs e hp hv hb hi hjb,
       fun Q dW2 dA2 =>
        standard_import_buffer_fetch_err parse vmin vcomp dW2 dA2 data source
          config json root bufs us imgs vs e hp hv hb hi hjb⟩,
    fun json root bufs us imgs vs buffers e hp hv hb hi hjb hji =>
      ⟨standard_import_image_fetch_err parse vmin vcomp dW dA data source
        config json root bufs us imgs vs buffers e hp hv hb hi hjb hji,
       fun Q dW2 dA2 =>
        standard_import_image_fetch_err parse vmin vcomp dW2 dA2 data source
          config json root bufs us imgs vs buffers e hp hv hb hi hjb hji⟩⟩
  · unfold standard_import
    simp only [hp]
  · unfold standard_import
    simp only [hp, hv]

/-- Witness for C7 at concrete inputs: a parse failure yields MalformedJson
with an empty fetch trace; a validation failure yields the collected list with
an empty fetch trace; a failing buffer fetch yields its wrapped error with two
different decoders. -/
theorem pipeline_short_circuit_witness :
    standard_import (ε := String) (J := String) (E := String)
        (P := Nat) (fun _ => .error ("bad")) (fun _ => []) (fun _ => [])
        (fun _ _ => .ok 0) (fun _ => .ok 0) [] (fun _ => .ok []) ⟨.Skip⟩ =
      (.err (.MalformedJson ("bad")), []) ∧
    standard_import (ε := String) (J := String) (E := String)
        (P := Nat) (fun _ => .ok docTwoBuffers)
        (fun _ => [(("p"), ("e"))]) (fun _ => [])
        (fun _ _ => .ok 0) (fun _ => .ok 0) [] (fun _ => .ok [])
        ⟨.Minimal⟩ =
      (.err (.Validation [(("p"), ("e"))]), []) ∧
    (standard_import (ε := String) (J := String) (E := String)
        (P := Nat) (fun _ => .ok docTwoBuffers) (fun _ => []) (fun _ => [])
        (fun _ _ => .ok 1) (fun _ => .ok 1) [] (fun _ => .error ("io"))
        ⟨.Skip⟩).1 = .err (.Shared (.Source ("io"))) := by
  refine ⟨?_, ?_, ?_⟩
  · exact (pipeline_short_circuit (ε := String) (J := String)
      (E := String) (P := Nat) (fun _ => .error ("bad")) (fun _ => [])
      (fun _ => []) (fun _ _ => .ok 0) (fun _ => .ok 0) []
      (fun _ => .ok []) ⟨.Skip⟩).1 ("bad") rfl
  · exact (pipeline_short_circuit (ε := String) (J := String)
      (E := String) (P := Nat) (fun _ => .ok docTwoBuffers)
      (fun _ => [(("p"), ("e"))]) (fun _ => [])
      (fun _ _ => .ok 0) (fun _ => .ok 0) [] (fun _ => .ok [])
      ⟨.Minimal⟩).2.1 docTwoBuffers [(("p"), ("e"))] rfl rfl
  · exact ((pipeline_short_circuit (ε := String) (J := String)
      (E := String) (P := Nat) (fun _ => .ok docTwoBuffers)
      (fun _ => []) (fun _ => []) (fun _ _ => .ok 1) (fun _ => .ok 1) []
      (fun _ => .error ("io")) ⟨.Skip⟩).2.2.1 docTwoBuffers
      (Root.new docTwoBuffers) [.error ("io"), .error ("io")]
      [("a.bin"), ("a.bin")] [] [] (.Shared (.Source ("io")))
      rfl rfl rfl rfl rfl).1

/-- Elementwise characterization of a successful `decode_images` run: one
decoded image per descriptor, in order. -/
theorem decode_images_get {E P : Type}
    (dW : Bytes → ImageFormat → Except E P)
    (dA : Bytes → Except E P) (buffers : List Bytes) :
    ∀ (imgs : List EncodedImage) (out : List P),
      decode_images dW dA buffers imgs = .ok (.ok out) →
      imgs.length = out.length ∧
      ∀ i (h1 : i < imgs.length) (h2 : i < out.length),
        decode_image dW dA buffers (imgs.get ⟨i, h1⟩) =
          .ok (.ok (out.get ⟨i, h2⟩)) := by
  intro imgs
  induction imgs with
  | nil =>
    intro out h
    simp [decode_images] at h
    refine ⟨by simp [h], fun i h1 h2 => absurd h1 (by simp)⟩
  | cons img rest ih =>
    intro out h
    rw [decode_images] at h
    cases hd : decode_image dW dA buffers img with
    | panic m => simp only [hd] at h; simp at h
    | ok r =>
      cases r with
      | error e => simp only [hd] at h; simp at h
      | ok d =>
        simp only [hd] at h
        cases hrest : decode_images dW dA buffers rest with
        | panic m => rw [hrest] at h; simp at h
        | ok r2 =>
          cases r2 with
          | error e => rw [hrest] at h; simp at h
          | ok ds =>
            rw [hrest] at h
            simp at h
            subst h
            obtain ⟨hlen, hget⟩ := ih ds hrest
            refine ⟨by simp [hlen], fun i h1 h2 => ?_⟩
            cases i with
            | zero => simpa using hd
            | succ n =>
              have h1' : n < rest.length := by
                simp [List.length_cons] at h1
                omega
              have h2' : n < ds.length := by
                simp [List.length_cons] at h2
                omega
              simpa using hget n h1' h2'

/-- C8: `decode_images` decodes a borrowed descriptor from exactly the bytes
[offset, offset+len) of the fetched buffer at its index using the declared
format, an owned descriptor with a declared format from its fetched bytes
with that format, and an owned descriptor without a declared format by
content auto-detection; a successful run decodes every descriptor this way,
in order. -/
theorem decode_images_spec {E P : Type}
    (dW : Bytes → ImageFormat → Except E P)
    (dA : Bytes → Except E P) (buffers : List Bytes) :
    (∀ index offset len format buf, buffers[index]? = some buf →
      offset + len ≤ buf.length →
      decode_image dW dA buffers (.Borrowed index offset len format) =
        .ok (dW ((buf.drop offset).take len) format)) ∧
    (∀ data format,
      decode_image dW dA buffers (.Owned data (some format)) =
        .ok (dW data format)) ∧
    (∀ data,
      decode_image dW dA buffers (.Owned data none) = .ok (dA data)) ∧
    (∀ imgs out, decode_images dW dA buffers imgs = .ok (.ok out) →
      imgs.length = out.length ∧
      ∀ i (h1 : i < imgs.length) (h2 : i < out.length),
        decode_image dW dA buffers (imgs.get ⟨i, h1⟩) =
          .ok (.ok (out.get ⟨i, h2⟩))) := by
  refine ⟨fun index offset len format buf hbuf hle => ?_,
    fun data format => rfl, fun data => rfl, decode_images_get dW dA buffers⟩
  unfold decode_image
  simp only [hbuf]
  rw [if_pos hle]

/-- Witness for C8 at concrete inputs: a borrowed descriptor over the buffer
[1, 2, 3, 4] with offset 1 and length 2 decodes the slice [2, 3]. -/
theorem decode_images_spec_witness :
    decode_image (E := String) (P := Nat)
      (fun b _ => .ok b.length) (fun b => .ok b.length)
      [[1, 2, 3, 4]] (.Borrowed 0 1 2 .PNG) = .ok (.ok 2) := by
  have h := (decode_images_spec (E := String) (P := Nat)
    (fun b _ => .ok b.length) (fun b => .ok b.length) [[1, 2, 3, 4]]).1
    0 1 2 .PNG [1, 2, 3, 4] rfl (by decide)
  exact h.trans rfl

/-- Elementwise characterization of a successful `source_images` run: one
descriptor per image entry, in entry order. -/
theorem source_images_get {ε : Type} (source : String → Except ε Bytes)
    (json : JsonRoot) :
    ∀ (entries : List Image) (imgs : List (AsyncImage ε)) (vs : List String),
      source_images source json entries = (.ok imgs, vs) →
      entries.length = imgs.length ∧
      ∀ i (h1 : i < entries.length) (h2 : i < imgs.length),
        (source_image source json (entries.get ⟨i, h1⟩)).1 =
          .ok (imgs.get ⟨i, h2⟩) := by
  intro entries
  induction entries with
  | nil =>
    intro imgs vs h
    simp [source_images] at h
    refine ⟨by simp [h.1], fun i h1 h2 => absurd h1 (by simp)⟩
  | cons entry rest ih =>
    intro imgs vs h
    rw [source_images] at h
    rcases hentry : source_image source json entry with ⟨r, us⟩
    rw [hentry] at h
    cases r with
    | panic m => simp at h
    | ok img =>
      rcases hrest : source_images source json rest with ⟨r2, ws⟩
      rw [hrest] at h
      cases r2 with
      | panic m => simp at h
      | ok imgs2 =>
        simp at h
        obtain ⟨hcons, hvs⟩ := h
        subst hcons
        obtain ⟨hlen, hget⟩ := ih imgs2 ws (by rw [hrest])
        refine ⟨by simp [hlen], fun i h1 h2 => ?_⟩
        cases i with
        | zero => simpa using congrArg Prod.fst hentry
        | succ n =>
          have h1' : n < rest.length := by
            simp [List.length_cons] at h1
            omega
          have h2' : n < imgs2.length := by
            simp [List.length_cons] at h2
            omega
          simpa using hget n h1' h2'

/-- Elementwise characterization of a successful image join: one resolved
image per descriptor, in order. -/
theorem join_all_images_get {ε J E : Type} :
    ∀ (imgs : List (AsyncImage ε)) (encs : List EncodedImage),
      join_all_images (J := J) (E := E) imgs = .ok encs →
      imgs.length = encs.length ∧
      ∀ i (h1 : i < imgs.length) (h2 : i < encs.length),
        resolve_image (J := J) (E := E) (imgs.get ⟨i, h1⟩) =
          .ok (encs.get ⟨i, h2⟩) := by
  intro imgs
  induction imgs with
  | nil =>
    intro encs h
    simp [join_all_images] at h
    refine ⟨by simp [h], fun i h1 h2 => absurd h1 (by simp)⟩
  | cons img rest ih =>
    intro encs h
    rw [join_all_images] at h
    cases hr : resolve_image (J := J) (E := E) img with
    | error e => rw [hr] at h; simp at h
    | ok enc =>
      rw [hr] at h
      cases hrest : join_all_images (J := J) (E := E) rest with
      | error e => rw [hrest] at h; simp at h
      | ok encs2 =>
        rw [hrest] at h
        simp at h
        subst h
        obtain ⟨hlen, hget⟩ := ih encs2 hrest
        refine ⟨by simp [hlen], fun i h1 h2 => ?_⟩
        cases i with
        | zero => simpa using hr
        | succ n =>
          have h1' : n < rest.length := by
            simp [List.length_cons] at h1
            omega
          have h2' : n < encs2.length := by
            simp [List.length_cons] at h2
            omega
          simpa using hget n h1' h2'

/-- C10: on a run where image sourcing, fetching and decoding all succeed, the
decode stage produces exactly one decoded image per image entry of the
document, and order is preserved: the i-th decoded image is obtained (through
descriptor construction and resolution) from the i-th image entry. -/
theorem images_pipeline_elementwise {ε J E P : Type}
    (source : String → Except ε Bytes) (root : Root)
    (dW : Bytes → ImageFormat → Except E P)
    (dA : Bytes → Except E P)
    (imgs : List (AsyncImage ε)) (vs : List String)
    (encs : List EncodedImage) (buffers : List Bytes) (out : List P)
    (hs : source_images source root.json root.json.images = (.ok imgs, vs))
    (hj : join_all_images (J := J) (E := E) imgs = .ok encs)
    (hd : decode_images dW dA buffers encs = .ok (.ok out)) :
    out.length = root.json.images.length ∧
    ∀ i (hi : i < root.json.images.length),
      ∃ (h1 : i < imgs.length) (h2 : i < encs.length) (h3 : i < out.length),
        (source_image source root.json (root.json.images.get ⟨i, hi⟩)).1 =
          .ok (imgs.get ⟨i, h1⟩) ∧
        resolve_image (J := J) (E := E) (imgs.get ⟨i, h1⟩) =
          .ok (encs.get ⟨i, h2⟩) ∧
        decode_image dW dA buffers (encs.get ⟨i, h2⟩) =
          .ok (.ok (out.get ⟨i, h3⟩)) := by
  obtain ⟨l1, g1⟩ :=
    source_images_get source root.json root.json.images imgs vs hs
  obtain ⟨l2, g2⟩ := join_all_images_get imgs encs hj
  obtain ⟨l3, g3⟩ := decode_images_get dW dA buffers encs out hd
  refine ⟨(l1.trans (l2.trans l3)).symm, fun i hi => ?_⟩
  have h1 : i < imgs.length := l1 ▸ hi
  have h2 : i < encs.length := l2 ▸ h1
  have h3 : i < out.length := l3 ▸ h2
  exact ⟨h1, h2, h3, g1 i hi h1, g2 i h1 h2, g3 i h2 h3⟩

/-- Witness for C10 at concrete inputs: one owned PNG image, fetched and
decoded, yields exactly one decoded image. -/
theorem images_pipeline_elementwise_witness :
    ([2] : List Nat).length = docOneImage.images.length :=
  (images_pipeline_elementwise (ε := String) (J := String)
    (E := String) (fun _ => .ok [7, 7]) (Root.new docOneImage)
    (fun b _ => .ok b.length) (fun b => .ok b.length)
    [.Owned (.ok [7, 7]) (some .PNG)] [("i.png")]
    [.Owned [7, 7] (some .PNG)] [] [2]
    rfl rfl rfl).1

/-- Witness for the C9 amended theorem at a concrete input. -/
theorem no_incompatible_version_witness :
    (standard_import (ε := String) (J := String) (E := String)
        (P := Nat)
        (fun _ => .ok docVersion10) (fun _ => []) (fun _ => [])
        (fun _ _ => .ok 0) (fun _ => .ok 0) [] (fun _ => .ok [])
        ⟨.Skip⟩).1 ≠ .err (.IncompatibleVersion ("1.0")) :=
  no_incompatible_version (fun _ => .ok docVersion10) (fun _ => [])
    (fun _ => []) (fun _ _ => .ok 0) (fun _ => .ok 0) []
    (fun _ => .ok []) ⟨.Skip⟩ ("1.0")

end GI
